import Mathlib

/-!
# STRIDE assistant — decision-and-arbitration core, shallow embedding

This file embeds the decision engine (`src/rag/decision_engine.py`), the
signal normalizer, arbitration, inventory gate and turn controller of the
RAG pipeline (`src/Services/rag_pipeline.py`), and the policy retriever
boundary (`src/rag/retriever.py` and its caller), and proves the spec's
claims about them.

Modelling conventions:
- Python strings are modelled as Lean `String`; where Python performs
  character-level editing (`.strip()/.upper()/.replace`) we work on
  `List Char` with ASCII case conversion, which matches the Python
  behaviour on every token the system exchanges.
- The current date only enters through `(date.today() - purchase_date).days`,
  so a purchase date is modelled by the outcome of that computation: either
  a day count (an integer, possibly negative) or one of the failure shapes
  distinguished by `_days_used`.
- Python floats that are only carried around (retriever match scores) are
  modelled as rationals; no claim depends on their arithmetic.
- External collaborators (intent analyzer, inventory lookup, policy store,
  prompt builder) are modelled as per-turn inputs, matching the spec's
  "interfaces only" treatment.
-/

namespace Stride

/-- `TicketSignal` from `rag_pipeline.py`: the closed canonical vocabulary
of arbitration signals. -/
inductive TicketSignal where
  | REJECT
  | INSPECTION
  | REPAIR
  | RETURN
  | REPLACEMENT
  | PAID_REPAIR
deriving DecidableEq

/-- The `.value` string of a `TicketSignal` member. -/
def TicketSignal.toStr : TicketSignal → String
  | .REJECT => "REJECT"
  | .INSPECTION => "INSPECTION"
  | .REPAIR => "REPAIR"
  | .RETURN => "RETURN"
  | .REPLACEMENT => "REPLACEMENT"
  | .PAID_REPAIR => "PAID_REPAIR"

/-- `Decision` from `decision_engine.py`. -/
inductive Decision where
  | approve
  | reject
  | manual
deriving DecidableEq

/-- `TicketType` from `decision_engine.py`. -/
inductive TicketType where
  | REJECT
  | INSPECTION
  | RETURN
  | REPAIR
  | REPLACEMENT
  | PAID_REPAIR
deriving DecidableEq

/-- The `.value` string of a `TicketType` member. -/
def TicketType.toStr : TicketType → String
  | .REJECT => "REJECT"
  | .INSPECTION => "INSPECTION"
  | .RETURN => "RETURN"
  | .REPAIR => "REPAIR"
  | .REPLACEMENT => "REPLACEMENT"
  | .PAID_REPAIR => "PAID_REPAIR"

/-- `Action` from `decision_engine.py`. -/
inductive Action where
  | policy_rejection
  | gather_info
  | refund_evaluation
  | replacement_authorized
  | stock_out_inspection
  | repair_authorized
  | paid_repair_offer
  | error
deriving DecidableEq

/-- `EngineConfig` from `decision_engine.py`. -/
structure EngineConfig where
  return_window_days : Int
  warranty_days : Int
  turn_limit : Nat
deriving DecidableEq

/-- The default `EngineConfig()` (7 / 180 / 3). -/
def defaultEngineConfig : EngineConfig := ⟨7, 180, 3⟩

/-- Outcome of reading `order_data["purchase_date"]`, as distinguished by
`StrideDecisionEngine._days_used`: the key may be missing or falsy, a string
that `strptime` rejects, a non-date object (no `year` attribute), or a real
date.  A real date is represented by `(date.today() - purchase_date).days`,
the only way the engine consumes it. -/
inductive PurchaseDate where
  | absent
  | unparseable
  | notADate
  | parsed (daysSince : Int)
deriving DecidableEq

/-- `StrideDecisionEngine._days_used`: `none` on a missing/invalid purchase
date, otherwise the signed day count since purchase. -/
def days_used : PurchaseDate → Option Int
  | .absent => none
  | .unparseable => none
  | .notADate => none
  | .parsed d => some d

/-- The fields of the analyzer output read by the decision engine
(`analysis.get("primary_intent")`, `analysis.get("misuse_or_accident")`). -/
structure Analysis where
  primary_intent : Option String
  misuse_or_accident : Bool
deriving DecidableEq

/-- The result dict built by `StrideDecisionEngine._result`. -/
structure EngineResult where
  decision : Decision
  action : Action
  ticket_type : TicketType
  reason : String
  generate_ticket : Bool
  paid_service_flag : Bool
  rule_code : String
deriving DecidableEq

/-- Python-style `.strip()` on a character list (drop leading and trailing
whitespace). -/
def strip_list (s : List Char) : List Char :=
  ((s.dropWhile Char.isWhitespace).reverse.dropWhile Char.isWhitespace).reverse

/-- Python-style `.strip()` on a `String`. -/
def py_strip (s : String) : String := String.mk (strip_list s.toList)

/-- `(analysis.get("primary_intent") or "general_chat").strip()`:
a missing or empty intent falls back to `"general_chat"`. -/
def effective_intent (pi : Option String) : String :=
  match pi with
  | none => "general_chat"
  | some s => if s = "" then "general_chat" else py_strip s

/-- `StrideDecisionEngine._handle_misuse` (rule 0). -/
def handle_misuse (cfg : EngineConfig) (d : Int) : EngineResult :=
  if d ≤ cfg.warranty_days then
    ⟨Decision.approve, Action.paid_repair_offer, TicketType.PAID_REPAIR,
      "Product shows signs of misuse or wear. Offering paid repair.",
      true, true, "RULE_0_MISUSE_IN_WARRANTY"⟩
  else
    ⟨Decision.reject, Action.policy_rejection, TicketType.REJECT,
      "Product issue falls under misuse/wear and the warranty is expired. Not eligible for free service.",
      false, false, "RULE_0_MISUSE_OUT_OF_WARRANTY"⟩

/-- `StrideDecisionEngine._handle_return_refund` (rule 1). -/
def handle_return_refund (cfg : EngineConfig) (d : Int) (primary_intent : String) :
    EngineResult :=
  if cfg.return_window_days < d then
    let w := cfg.return_window_days
    ⟨Decision.reject, Action.policy_rejection, TicketType.REJECT,
      s!"Request for {primary_intent} after {d} days. Policy limit is {w} days.",
      false, false, "RULE_1_RETURN_REFUND_TOO_LATE"⟩
  else
    ⟨Decision.manual, Action.refund_evaluation, TicketType.RETURN,
      "Refund/Return requested within policy window. Mandatory inspection required.",
      true, false, "RULE_1_RETURN_REFUND_WITHIN_WINDOW"⟩

/-- `StrideDecisionEngine._handle_repair_replacement` (rule 2). -/
def handle_repair_replacement (cfg : EngineConfig) (d : Int)
    (inventory_available : Bool) : EngineResult :=
  if d ≤ cfg.return_window_days then
    if inventory_available then
      ⟨Decision.approve, Action.replacement_authorized, TicketType.REPLACEMENT,
        "Replacement within policy window approved. Stock confirmed.",
        true, false, "RULE_2_EARLY_REPLACEMENT_IN_STOCK"⟩
    else
      ⟨Decision.manual, Action.stock_out_inspection, TicketType.INSPECTION,
        "Replacement eligible but stock unavailable. Manual review required.",
        true, false, "RULE_2_EARLY_REPLACEMENT_STOCK_OUT"⟩
  else if d ≤ cfg.warranty_days then
    ⟨Decision.approve, Action.repair_authorized, TicketType.REPAIR,
      s!"In-warranty repair approved (days_used={d}).",
      true, false, "RULE_2_REPAIR_IN_WARRANTY"⟩
  else
    ⟨Decision.approve, Action.paid_repair_offer, TicketType.PAID_REPAIR,
      s!"Warranty expired (days_used={d}). Converting to paid repair service.",
      true, true, "RULE_2_PAID_REPAIR_OUT_OF_WARRANTY"⟩

/-- `StrideDecisionEngine.make_decision`: the ordered rule table.  The
purchase-date guard runs first; then general chat, turn limit, misuse,
return/refund, repair/replacement, and the clarification default. -/
def make_decision (cfg : EngineConfig) (purchase_date : PurchaseDate)
    (inventory_available : Bool) (turn_count : Nat) (analysis : Analysis) :
    EngineResult :=
  let primary_intent := effective_intent analysis.primary_intent
  let misuse_flag := analysis.misuse_or_accident
  match days_used purchase_date with
  | none =>
    ⟨Decision.manual, Action.gather_info, TicketType.INSPECTION,
      "Missing/invalid purchase_date. Manual inspection required.",
      true, false, "DATA_QUALITY_PURCHASE_DATE"⟩
  | some d =>
    if primary_intent = "general_chat" then
      ⟨Decision.reject, Action.policy_rejection, TicketType.REJECT,
        "The message does not follow any policy.",
        false, false, "RULE_NEG1_GENERAL_CHAT"⟩
    else if cfg.turn_limit ≤ turn_count then
      ⟨Decision.manual, Action.gather_info, TicketType.INSPECTION,
        "Turn limit reached. Moving to manual review.",
        true, false, "RULE_3_TURN_LIMIT"⟩
    else if misuse_flag then
      handle_misuse cfg d
    else if primary_intent = "refund_request" ∨ primary_intent = "return_request" then
      handle_return_refund cfg d primary_intent
    else if primary_intent = "repair_request" ∨ primary_intent = "replacement_request" then
      handle_repair_replacement cfg d inventory_available
    else
      ⟨Decision.manual, Action.gather_info, TicketType.INSPECTION,
        "Clarification required.", false, false, "DEFAULT_CLARIFICATION"⟩

/-! ## Signal normalizer (`STRIDERAGPipeline._normalize_signal`) -/

/-- ASCII uppercase of one character (Python `str.upper` restricted to the
ASCII tokens the system exchanges). -/
def upper_char (c : Char) : Char :=
  if c.isLower then Char.ofNat (c.toNat - 32) else c

/-- Python `.upper()` on a character list. -/
def upper_list (s : List Char) : List Char := s.map upper_char

/-- `.replace("-", "_").replace(" ", "_")`: single-character replacement is a
map. -/
def seps_to_underscores (s : List Char) : List Char :=
  s.map (fun c => if c = '-' ∨ c = ' ' then '_' else c)

/-- `.replace("__", "_")`: one left-to-right non-overlapping pass, resuming
after each match, exactly as Python `str.replace` does. -/
def collapse_uu : List Char → List Char
  | '_' :: '_' :: rest => '_' :: collapse_uu rest
  | c :: rest => c :: collapse_uu rest
  | [] => []

/-- The `aliases` dict lookup `aliases.get(text, text)`. -/
def apply_alias (t : List Char) : List Char :=
  if t = "PAIDREPAIR".toList then "PAID_REPAIR".toList
  else if t = "PAID_REPAIR".toList then "PAID_REPAIR".toList
  else if t = "PAID__REPAIR".toList then "PAID_REPAIR".toList
  else if t = "INSPECT".toList then "INSPECTION".toList
  else t

/-- Is `pat` an initial segment of `s`? -/
def begins_with : List Char → List Char → Bool
  | [], _ => true
  | _ :: _, [] => false
  | p :: ps, c :: cs => p = c && begins_with ps cs

/-- Python `pat in s` substring test. -/
def contains_sub (pat : List Char) : List Char → Bool
  | [] => begins_with pat []
  | c :: rest => begins_with pat (c :: rest) || contains_sub pat rest

/-- `str(raw).strip().upper()` with separators mapped to underscores, doubled
underscores collapsed (one pass) and the alias table applied: the canonical
text the substring checks run on. -/
def canonical_text (s : String) : List Char :=
  apply_alias (collapse_uu (seps_to_underscores (upper_list (strip_list s.toList))))

/-- `STRIDERAGPipeline._normalize_signal`: `none` models Python `None`
(mapped to INSPECTION before any string work); otherwise the canonical text
is tested for the keyword substrings in the source's order. -/
def normalize_signal (raw : Option String) : TicketSignal :=
  match raw with
  | none => TicketSignal.INSPECTION
  | some s =>
    let text := canonical_text s
    if contains_sub "RETURN".toList text && !contains_sub "REPLAC".toList text then
      TicketSignal.RETURN
    else if contains_sub "REPLAC".toList text then
      TicketSignal.REPLACEMENT
    else if contains_sub "REPAIR".toList text && contains_sub "PAID".toList text then
      TicketSignal.PAID_REPAIR
    else if contains_sub "REPAIR".toList text then
      TicketSignal.REPAIR
    else if contains_sub "REJECT".toList text then
      TicketSignal.REJECT
    else
      TicketSignal.INSPECTION

/-- The substring-precedence order exactly as the spec sentence states it
(REPLAC first, then PAID+REPAIR, then REPAIR, then REJECT, then RETURN,
else INSPECTION), applied to the same canonical text.  Written from the
spec's words to compare against `normalize_signal`. -/
def normalize_spec_order (raw : String) : TicketSignal :=
  let text := canonical_text raw
  if contains_sub "REPLAC".toList text then
    TicketSignal.REPLACEMENT
  else if contains_sub "PAID".toList text && contains_sub "REPAIR".toList text then
    TicketSignal.PAID_REPAIR
  else if contains_sub "REPAIR".toList text then
    TicketSignal.REPAIR
  else if contains_sub "REJECT".toList text then
    TicketSignal.REJECT
  else if contains_sub "RETURN".toList text then
    TicketSignal.RETURN
  else
    TicketSignal.INSPECTION

/-! ## Signals and arbitration (`STRIDERAGPipeline._resolve_final_ticket`) -/

/-- The `source` tag of a recorded signal; `_record_signal` is only ever
called with `"retriever"` or `"engine"`. -/
inductive Source where
  | retriever
  | engine
deriving DecidableEq

/-- `PipelineSignal` from `rag_pipeline.py` (the float `confidence` is
modelled as a rational; it is carried but never computed with). -/
structure PipelineSignal where
  source : Source
  value : TicketSignal
  turn : Nat
  confidence : Option ℚ
deriving DecidableEq

/-- `weight = 2 if s.source == "engine" else 1`. -/
def signal_weight (s : PipelineSignal) : Nat :=
  if s.source = Source.engine then 2 else 1

/-- The `weighted_votes` list: each signal contributes `weight` copies of its
value, in ledger order. -/
def weighted_votes : List PipelineSignal → List TicketSignal
  | [] => []
  | s :: rest => List.replicate (signal_weight s) s.value ++ weighted_votes rest

/-- Distinct values of a vote list in order of first occurrence (the
iteration order of a Python `Counter` built from it). -/
def first_distinct : List TicketSignal → List TicketSignal
  | [] => []
  | v :: rest => v :: (first_distinct rest).filter (fun w => w ≠ v)

/-- `Counter(votes).most_common(1)[0][0]`: the earliest-first-seen value of
maximal multiplicity.  Python would raise on an empty list and the caller's
`except` turns that into INSPECTION, so the empty case returns INSPECTION. -/
def most_common (votes : List TicketSignal) : TicketSignal :=
  match first_distinct votes with
  | [] => TicketSignal.INSPECTION
  | v :: rest =>
    rest.foldl (fun best w => if votes.count best < votes.count w then w else best) v

/-- `STRIDERAGPipeline._resolve_final_ticket`: engine-weighted arbitration
over the ledger. -/
def resolve_final_ticket (signals : List PipelineSignal) : TicketSignal :=
  let wv := weighted_votes signals
  let unique : Finset TicketSignal := wv.toFinset
  if unique = {TicketSignal.REJECT} then
    TicketSignal.REJECT
  else if unique ⊆ {TicketSignal.REPAIR, TicketSignal.INSPECTION} then
    if 3 ≤ wv.count TicketSignal.REPAIR then TicketSignal.REPAIR
    else TicketSignal.INSPECTION
  else if unique = {TicketSignal.RETURN, TicketSignal.REPLACEMENT} then
    TicketSignal.REPLACEMENT
  else if wv.count TicketSignal.PAID_REPAIR = wv.length then
    TicketSignal.PAID_REPAIR
  else
    most_common wv

/-- The arbitration rule table exactly as the spec states it: the distinct
set is taken over the *unweighted* signal values, and rule 4 asks that every
weighted vote equal PAID_REPAIR.  Written from the spec's words to compare
against `resolve_final_ticket`. -/
def arbitration_spec (signals : List PipelineSignal) : TicketSignal :=
  let wv := weighted_votes signals
  let distinct : Finset TicketSignal := (signals.map (fun s => s.value)).toFinset
  if distinct = {TicketSignal.REJECT} then
    TicketSignal.REJECT
  else if distinct ⊆ {TicketSignal.REPAIR, TicketSignal.INSPECTION} then
    if 3 ≤ wv.count TicketSignal.REPAIR then TicketSignal.REPAIR
    else TicketSignal.INSPECTION
  else if distinct = {TicketSignal.RETURN, TicketSignal.REPLACEMENT} then
    TicketSignal.REPLACEMENT
  else if wv.all (fun v => v = TicketSignal.PAID_REPAIR) then
    TicketSignal.PAID_REPAIR
  else
    most_common wv

/-! ## Pipeline controller (`STRIDERAGPipeline.process_turn`) -/

/-- The order dict as read by the pipeline: the three gating fields plus the
purchase date consumed by the engine.  A missing order (`{}`) is all-`none`
fields with an absent purchase date. -/
structure OrderData where
  outlet_id : Option String
  product_id : Option String
  size : Option String
  purchase_date : PurchaseDate
deriving DecidableEq

/-- Python truthiness of an optional string (`None` and `""` are falsy). -/
def truthy : Option String → Bool
  | none => false
  | some s => s ≠ ""

/-- `STRIDERAGPipeline._has_minimum_order_context`. -/
def has_minimum_order_context (o : OrderData) : Bool :=
  truthy o.outlet_id && truthy o.product_id && truthy o.size

/-- Per-conversation mutable state owned by `STRIDERAGPipeline`. -/
structure PipelineState where
  turn_count : Nat
  general_chat_count : Nat
  order : OrderData
  inventory_available : Option Bool
  signals : List PipelineSignal
deriving DecidableEq

/-- The dict returned by `retrieve_policy` as read by `_run_retriever`
(`policy.get("policy_type")`, `policy.get("match_score")`). -/
structure RetrievedPolicy where
  policy_type : Option String
  match_score : Option ℚ
deriving DecidableEq

/-- One turn's observations of the external collaborators: the analyzer's
output (`intent` is read by the general-chat check, `primary_intent` and the
misuse flag by the engine), the retriever's result (`none` models a falsy
return), and the outcome of `_check_inventory_safe` (which already converts
a lookup failure into `false`). -/
structure TurnInput where
  intent : Option String
  primary_intent : Option String
  misuse_or_accident : Bool
  retriever_policy : Option RetrievedPolicy
  inventory_ok : Bool
deriving DecidableEq

/-- The response dict of one turn; keys that a branch does not set are
`none`.  Prompt text built by the external `StridePromptBuilder` is
represented by a placeholder. -/
structure TurnResult where
  final_ticket : String
  ai_message : String
  signals : List PipelineSignal
  turn_count : Nat
  decision_reason : Option String
  needs_clarification : Option Bool
  chat_closed : Option Bool
deriving DecidableEq

/-- Stand-in for the externally built LLM prompt (out of scope per the
spec). -/
def llm_prompt : String := "<llm_prompt>"

/-- The terminal general-chat message (second consecutive occurrence). -/
def gcd_closed_message : String :=
  "I am an automated support system for STRIDE. If you do not have an order-related issue to report, I will have to terminate this chat session to keep the line open for other customers."

/-- The first-occurrence general-chat redirect message. -/
def gcd_redirect_message : String :=
  "I am the STRIDE Support Assistant, and I am dedicated to helping you with order or product issues. Do you have a specific problem with a STRIDE purchase I can help you with?"

/-- Python `.upper()` on a `String`. -/
def py_upper (s : String) : String := String.mk (upper_list s.toList)

/-- `STRIDERAGPipeline._run_retriever` after the external call: a falsy
policy yields the INSPECTION signal; otherwise the policy type is uppercased
and normalized, and the match score is carried through. -/
def run_retriever (policy : Option RetrievedPolicy) : TicketSignal × Option ℚ :=
  match policy with
  | none => (TicketSignal.INSPECTION, none)
  | some p =>
    let policy_type := py_upper (p.policy_type.getD "")
    (normalize_signal (some policy_type), p.match_score)

/-- `STRIDERAGPipeline._manual_fallback`. -/
def manual_fallback (st : PipelineState) (reason : String) : TurnResult :=
  ⟨"INSPECTION", "Fallback: manual inspection required.", st.signals,
    st.turn_count, some reason, none, none⟩

/-- `STRIDERAGPipeline.process_turn`, returning the updated conversation
state together with the response dict.  The general-chat diversion runs
first; then the order-context guard; then the turn counter increments, the
inventory is checked, retriever and engine signals are appended, and either
the turn-1 clarification response or the arbitrated (inventory-gated)
final ticket is returned. -/
def process_turn (st : PipelineState) (inp : TurnInput) :
    PipelineState × TurnResult :=
  if inp.intent = some "general_chat" then
    let st1 : PipelineState :=
      { st with general_chat_count := st.general_chat_count + 1 }
    if 2 ≤ st1.general_chat_count then
      (st1, ⟨"GCD", gcd_closed_message, st1.signals, st1.turn_count,
        some "Repeated general chat", none, some true⟩)
    else
      (st1, ⟨"GCD", gcd_redirect_message, st1.signals, st1.turn_count,
        some "General chat detected", none, some false⟩)
  else
    let st0 : PipelineState := { st with general_chat_count := 0 }
    if has_minimum_order_context st0.order = false then
      (st0, manual_fallback st0
        "Order not found or missing required fields (outlet_id/product_id/size).")
    else
      let st1 : PipelineState := { st0 with turn_count := st0.turn_count + 1 }
      let inv := inp.inventory_ok
      let st2 : PipelineState := { st1 with inventory_available := some inv }
      let retr := run_retriever inp.retriever_policy
      let st3 : PipelineState :=
        { st2 with signals :=
            st2.signals ++ [⟨Source.retriever, retr.1, st2.turn_count, retr.2⟩] }
      let engine_result := make_decision defaultEngineConfig
        st3.order.purchase_date inv st3.turn_count
        ⟨inp.primary_intent, inp.misuse_or_accident⟩
      let engine_signal := normalize_signal (some engine_result.ticket_type.toStr)
      let st4 : PipelineState :=
        { st3 with signals :=
            st3.signals ++ [⟨Source.engine, engine_signal, st3.turn_count, none⟩] }
      if st4.turn_count = 1 then
        (st4, ⟨"T1", llm_prompt, st4.signals, st4.turn_count, none, some true, none⟩)
      else
        let ft := resolve_final_ticket st4.signals
        let ft2 := if ft = TicketSignal.REPLACEMENT ∧ inv = false then
          TicketSignal.INSPECTION else ft
        (st4, ⟨ft2.toStr, llm_prompt, st4.signals, st4.turn_count,
          some engine_result.reason, none, none⟩)

/-! ## Policy retriever boundary

`rag_pipeline.py` imports `retrieve_policy` from `rag.retriever`, and
`tests/test_retriever.py` exercises it (eligibility metadata + similarity
ranking, "requires your upgraded signature"), but `src/rag/retriever.py`
only contains the older rule-router `retrieve_policy_chunks`; the function
itself is not in `src/`.  It is therefore modelled from the spec (§4.2). -/

/-- The spec's DataError category (missing/unparseable purchase date). -/
inductive DataError where
  | bad_purchase_date
deriving DecidableEq

/-- A stored policy record: label, content blob, embedding vector, and the
eligibility metadata `{min_days, max_days (nullable = unbounded),
eligible_intents}`. -/
structure PolicyRecord where
  policy_type : String
  content : String
  embedding : List ℚ
  min_days : Int
  max_days : Option Int
  eligible_intents : List String
deriving DecidableEq

/-- The eligibility invariant: `min_days ≤ days_since_purchase ≤ max_days`
(a `none` bound is unbounded) and the predicted intent belongs to the
record's intent set. -/
def eligible_record (r : PolicyRecord) (d : Int) (intent : Option String) : Bool :=
  decide (r.min_days ≤ d) &&
  (match r.max_days with
   | none => true
   | some m => decide (d ≤ m)) &&
  (match intent with
   | none => false
   | some i => r.eligible_intents.contains i)

/-- The retriever's result: the matched record's label and content plus its
similarity score. -/
structure PolicyMatch where
  policy_type : String
  content : String
  match_score : ℚ
deriving DecidableEq

/-- Highest-scoring record of `r :: rs`; a strict comparison keeps the
first-encountered record on ties, as the spec documents. -/
def select_best (score : PolicyRecord → ℚ) (r : PolicyRecord)
    (rs : List PolicyRecord) : PolicyRecord :=
  rs.foldl (fun best c => if score best < score c then c else best) r

/-- Modelled from the spec: `retrieve_policy` is called by
`STRIDERAGPipeline._run_retriever` and tested by `tests/test_retriever.py`
but absent from `src/rag/retriever.py`.  Per §4.2 it computes
`days_since_purchase` (a DataError if the purchase date is missing or
unparseable), keeps the records satisfying the eligibility invariant,
scores survivors with the opaque similarity function `sim` against the
query, and returns the single highest-scoring record, or no match when
nothing is eligible. -/
def retrieve_policy (sim : String → List ℚ → ℚ) (records : List PolicyRecord)
    (user_query : String) (predicted_intent : Option String)
    (purchase_date : PurchaseDate) : Except DataError (Option PolicyMatch) :=
  match days_used purchase_date with
  | none => Except.error DataError.bad_purchase_date
  | some d =>
    match records.filter (fun r => eligible_record r d predicted_intent) with
    | [] => Except.ok none
    | r :: rs =>
      let best := select_best (fun p => sim user_query p.embedding) r rs
      Except.ok (some ⟨best.policy_type, best.content, sim user_query best.embedding⟩)

/-- Modelled from the spec: the caller must treat a DataError as "no match,"
not a crash (§4.2, §7). -/
def retrieve_policy_or_none (sim : String → List ℚ → ℚ)
    (records : List PolicyRecord) (user_query : String)
    (predicted_intent : Option String) (purchase_date : PurchaseDate) :
    Option PolicyMatch :=
  match retrieve_policy sim records user_query predicted_intent purchase_date with
  | Except.error _ => none
  | Except.ok p => p

/-- Shape in which a retriever match reaches `_run_retriever`. -/
def to_pipeline_policy (m : Option PolicyMatch) : Option RetrievedPolicy :=
  m.map (fun p => ⟨some p.policy_type, some p.match_score⟩)

/-! ## Concrete instances used by witnesses and counterexamples -/

/-- An engine signal literal. -/
def engSig (v : TicketSignal) (t : Nat) : PipelineSignal := ⟨Source.engine, v, t, none⟩

/-- A retriever signal literal. -/
def retSig (v : TicketSignal) (t : Nat) : PipelineSignal := ⟨Source.retriever, v, t, none⟩

/-- A complete order (2 days since purchase), as in the repo's test stub. -/
def demo_order : OrderData := ⟨some "OUT1", some "P1", some "9", PurchaseDate.parsed 2⟩

/-- Conversation state after one substantive turn that recorded RETURN from
both sources. -/
def demo_state_turn1 : PipelineState :=
  ⟨1, 0, demo_order, some true, [retSig TicketSignal.RETURN 1, engSig TicketSignal.RETURN 1]⟩

/-- A refund-intent turn input with a matched Return policy and stock. -/
def demo_input_refund : TurnInput :=
  ⟨some "refund_request", some "refund_request", false,
    some ⟨some "Return", some 1⟩, true⟩

/-- The policy record from the retriever test fixture. -/
def demo_record : PolicyRecord :=
  ⟨"Return Policy", "eligibility text", [1, 0, 0], 0, some 7, ["return_request"]⟩

/-- A deterministic stand-in similarity function. -/
def demo_sim : String → List ℚ → ℚ := fun _ e => e.headD 0

/-! # Theorems -/

/-! ## Helper lemmas -/

theorem signal_weight_ne_zero (s : PipelineSignal) : signal_weight s ≠ 0 := by
  unfold signal_weight
  split <;> simp

theorem mem_weighted_votes {v : TicketSignal} {ss : List PipelineSignal} :
    v ∈ weighted_votes ss ↔ ∃ s ∈ ss, s.value = v := by
  induction ss with
  | nil => simp [weighted_votes]
  | cons s rest ih =>
    simp only [weighted_votes, List.mem_append, List.mem_replicate, ih,
      List.mem_cons]
    constructor
    · rintro (⟨-, rfl⟩ | ⟨w, hw, rfl⟩)
      · exact ⟨s, Or.inl rfl, rfl⟩
      · exact ⟨w, Or.inr hw, rfl⟩
    · rintro ⟨w, (rfl | hw), rfl⟩
      · exact Or.inl ⟨signal_weight_ne_zero w, rfl⟩
      · exact Or.inr ⟨w, hw, rfl⟩

theorem toFinset_weighted_votes (ss : List PipelineSignal) :
    (weighted_votes ss).toFinset = (ss.map (fun s => s.value)).toFinset := by
  ext v
  simp only [List.mem_toFinset, mem_weighted_votes, List.mem_map]

theorem count_paid_eq_length_iff (l : List TicketSignal) :
    l.count TicketSignal.PAID_REPAIR = l.length ↔
      l.all (fun v => v = TicketSignal.PAID_REPAIR) = true := by
  rw [List.count_eq_length, List.all_eq_true]
  constructor
  · intro h v hv
    simp [h v hv]
  · intro h v hv
    have := h v hv
    simp at this
    exact this.symm

/-- C1: for every non-empty signal ledger, arbitration builds the
engine-weight-2 / retriever-weight-1 multiset and resolves by the spec's
five ordered rules (all-REJECT; {REPAIR, INSPECTION} subset with the
weighted-REPAIR ≥ 3 threshold; {RETURN, REPLACEMENT}; weighted PAID_REPAIR
unanimity; plurality with first-seen tie-break), where the distinct-value
set is the set of unweighted signal values. -/
theorem arbitration_matches_spec_rules (signals : List PipelineSignal)
    (_h : signals ≠ []) :
    resolve_final_ticket signals = arbitration_spec signals := by
  simp only [resolve_final_ticket, arbitration_spec, toFinset_weighted_votes,
    ← count_paid_eq_length_iff]

/-- Witness for C1 at a concrete two-signal ledger. -/
theorem arbitration_matches_spec_rules_witness :
    resolve_final_ticket [retSig TicketSignal.RETURN 1, engSig TicketSignal.REJECT 1] =
      arbitration_spec [retSig TicketSignal.RETURN 1, engSig TicketSignal.REJECT 1] :=
  arbitration_matches_spec_rules _ (by simp)

/-- C2: with a valid purchase date, a refund/return intent, no misuse flag
and the turn count below the limit, the engine's result is exactly the
source's `_result(...)` for the matching branch of `_handle_return_refund`:
strictly after 7 days the reject record (decision reject, ticket REJECT,
`generate_ticket=False`, rule code RULE_1_RETURN_REFUND_TOO_LATE), and
within the window the manual record (decision manual, ticket RETURN,
`generate_ticket=True`, rule code RULE_1_RETURN_REFUND_WITHIN_WINDOW —
the `generate_ticket=False` of this handler belongs only to its
over-7-days reject branch). -/
theorem engine_return_refund_window (d : Int) (a : Analysis) (inv : Bool)
    (tc : Nat)
    (hint : effective_intent a.primary_intent = "refund_request" ∨
      effective_intent a.primary_intent = "return_request")
    (hmis : a.misuse_or_accident = false)
    (htc : tc < defaultEngineConfig.turn_limit) :
    (7 < d →
      make_decision defaultEngineConfig (PurchaseDate.parsed d) inv tc a =
        ⟨Decision.reject, Action.policy_rejection, TicketType.REJECT,
          s!"Request for {effective_intent a.primary_intent} after {d} days. Policy limit is {(7 : Int)} days.",
          false, false, "RULE_1_RETURN_REFUND_TOO_LATE"⟩) ∧
    (d ≤ 7 →
      make_decision defaultEngineConfig (PurchaseDate.parsed d) inv tc a =
        ⟨Decision.manual, Action.refund_evaluation, TicketType.RETURN,
          "Refund/Return requested within policy window. Mandatory inspection required.",
          true, false, "RULE_1_RETURN_REFUND_WITHIN_WINDOW"⟩) := by
  have hne : effective_intent a.primary_intent ≠ "general_chat" := by
    rcases hint with h | h <;> rw [h] <;> decide
  have htc3 : tc < 3 := htc
  have htc4 : ¬ (3 ≤ tc) := by omega
  rcases hint with h | h <;>
    simp [make_decision, days_used, h, hmis, htc4, hne,
      handle_return_refund, defaultEngineConfig]

/-- Witness for C2, exercising both branches: at 8 days the engine returns
the reject record with `generate_ticket = false`; at 2 days it returns the
manual RETURN record with `generate_ticket = true`. -/
theorem engine_return_refund_window_witness :
    make_decision defaultEngineConfig (PurchaseDate.parsed 8) true 1
        ⟨some "refund_request", false⟩ =
      ⟨Decision.reject, Action.policy_rejection, TicketType.REJECT,
        "Request for refund_request after 8 days. Policy limit is 7 days.",
        false, false, "RULE_1_RETURN_REFUND_TOO_LATE"⟩ ∧
    make_decision defaultEngineConfig (PurchaseDate.parsed 2) true 1
        ⟨some "return_request", false⟩ =
      ⟨Decision.manual, Action.refund_evaluation, TicketType.RETURN,
        "Refund/Return requested within policy window. Mandatory inspection required.",
        true, false, "RULE_1_RETURN_REFUND_WITHIN_WINDOW"⟩ := by
  constructor
  · rw [(engine_return_refund_window 8 ⟨some "refund_request", false⟩ true 1
      (Or.inl (by decide)) rfl (by decide)).1 (by decide)]
    decide
  · rw [(engine_return_refund_window 2 ⟨some "return_request", false⟩ true 1
      (Or.inr (by decide)) rfl (by decide)).2 (by decide)]

/-- C3: with a valid purchase date, a non-general-chat intent and the turn
count below the limit, the misuse rule fires before any intent-specific rule
(the intent is arbitrary here): within 180 days it approves a PAID_REPAIR
with `paid_service_flag`, after 180 days it rejects. -/
theorem engine_misuse_rule_precedence (d : Int) (a : Analysis) (inv : Bool)
    (tc : Nat)
    (hne : effective_intent a.primary_intent ≠ "general_chat")
    (htc : tc < defaultEngineConfig.turn_limit)
    (hmis : a.misuse_or_accident = true) :
    (d ≤ 180 →
      (make_decision defaultEngineConfig (PurchaseDate.parsed d) inv tc a).decision =
          Decision.approve ∧
        (make_decision defaultEngineConfig (PurchaseDate.parsed d) inv tc a).ticket_type =
          TicketType.PAID_REPAIR ∧
        (make_decision defaultEngineConfig (PurchaseDate.parsed d) inv tc a).paid_service_flag =
          true) ∧
    (180 < d →
      (make_decision defaultEngineConfig (PurchaseDate.parsed d) inv tc a).decision =
          Decision.reject ∧
        (make_decision defaultEngineConfig (PurchaseDate.parsed d) inv tc a).ticket_type =
          TicketType.REJECT) := by
  have htc3 : tc < 3 := htc
  have htc4 : ¬ (3 ≤ tc) := by omega
  simp [make_decision, days_used, hmis, htc4, hne, handle_misuse,
    defaultEngineConfig]
  constructor <;> (intro hd; split <;> (try simp) <;> omega)

/-- Witness for C3 at 10 days with a repair intent. -/
theorem engine_misuse_rule_precedence_witness :
    (make_decision defaultEngineConfig (PurchaseDate.parsed 10) true 1
        ⟨some "repair_request", true⟩).decision = Decision.approve ∧
      (make_decision defaultEngineConfig (PurchaseDate.parsed 10) true 1
        ⟨some "repair_request", true⟩).ticket_type = TicketType.PAID_REPAIR ∧
      (make_decision defaultEngineConfig (PurchaseDate.parsed 10) true 1
        ⟨some "repair_request", true⟩).paid_service_flag = true :=
  (engine_misuse_rule_precedence 10 ⟨some "repair_request", true⟩ true 1
    (by decide) (by decide) rfl).1 (by decide)

/-- C4: whenever `_days_used` yields nothing (missing, unparseable, or
non-date purchase date), the engine short-circuits, for every analysis
(including general_chat), misuse flag, inventory flag and turn count, to a
manual INSPECTION — never an approval or rejection. -/
theorem engine_invalid_date_fail_safe (pd : PurchaseDate) (a : Analysis)
    (inv : Bool) (tc : Nat) (hpd : days_used pd = none) :
    (make_decision defaultEngineConfig pd inv tc a).decision = Decision.manual ∧
      (make_decision defaultEngineConfig pd inv tc a).ticket_type =
        TicketType.INSPECTION := by
  cases pd with
  | absent => simp [make_decision, days_used]
  | unparseable => simp [make_decision, days_used]
  | notADate => simp [make_decision, days_used]
  | parsed d => simp [days_used] at hpd

/-- Witness for C4 at an absent purchase date with a general-chat analysis,
misuse flag set, and the turn limit exceeded. -/
theorem engine_invalid_date_fail_safe_witness :
    (make_decision defaultEngineConfig PurchaseDate.absent true 5
        ⟨some "general_chat", true⟩).decision = Decision.manual ∧
      (make_decision defaultEngineConfig PurchaseDate.absent true 5
        ⟨some "general_chat", true⟩).ticket_type = TicketType.INSPECTION :=
  engine_invalid_date_fail_safe PurchaseDate.absent ⟨some "general_chat", true⟩
    true 5 rfl

/-- C5 counterexample: on the token "RETURN_REPAIR" (contains RETURN and
REPAIR, no REPLAC) the code returns RETURN — its first check is
RETURN-without-REPLAC — while the precedence order stated by the claim
(REPLAC, then PAID+REPAIR, then REPAIR, then REJECT, then RETURN) would
return REPAIR.  The claim's stated order is therefore not the code's. -/
theorem normalizer_claimed_order_counterexample :
    normalize_signal (some "RETURN_REPAIR") = TicketSignal.RETURN ∧
      normalize_spec_order "RETURN_REPAIR" = TicketSignal.REPAIR ∧
      normalize_signal (some "RETURN_REPAIR") ≠
        normalize_spec_order "RETURN_REPAIR" := by
  decide

/-- C5 amended: after uppercasing, separator mapping, one-pass collapse and
the alias table, the substring precedence actually implemented is:
RETURN-without-REPLAC first, then REPLAC, then PAID together with REPAIR,
then REPAIR, then REJECT, else INSPECTION.  In particular every token
containing both RETURN and REPLAC resolves to REPLACEMENT, never RETURN
(second conjunct, with no RETURN precondition). -/
theorem normalizer_precedence_amended (raw : String) :
    (contains_sub "RETURN".toList (canonical_text raw) = true →
      contains_sub "REPLAC".toList (canonical_text raw) = false →
      normalize_signal (some raw) = TicketSignal.RETURN) ∧
    (contains_sub "REPLAC".toList (canonical_text raw) = true →
      normalize_signal (some raw) = TicketSignal.REPLACEMENT) ∧
    (contains_sub "RETURN".toList (canonical_text raw) = false →
      contains_sub "REPLAC".toList (canonical_text raw) = false →
      contains_sub "PAID".toList (canonical_text raw) = true →
      contains_sub "REPAIR".toList (canonical_text raw) = true →
      normalize_signal (some raw) = TicketSignal.PAID_REPAIR) ∧
    (contains_sub "RETURN".toList (canonical_text raw) = false →
      contains_sub "REPLAC".toList (canonical_text raw) = false →
      contains_sub "PAID".toList (canonical_text raw) = false →
      contains_sub "REPAIR".toList (canonical_text raw) = true →
      normalize_signal (some raw) = TicketSignal.REPAIR) ∧
    (contains_sub "RETURN".toList (canonical_text raw) = false →
      contains_sub "REPLAC".toList (canonical_text raw) = false →
      contains_sub "REPAIR".toList (canonical_text raw) = false →
      contains_sub "REJECT".toList (canonical_text raw) = true →
      normalize_signal (some raw) = TicketSignal.REJECT) ∧
    (contains_sub "RETURN".toList (canonical_text raw) = false →
      contains_sub "REPLAC".toList (canonical_text raw) = false →
      contains_sub "REPAIR".toList (canonical_text raw) = false →
      contains_sub "REJECT".toList (canonical_text raw) = false →
      normalize_signal (some raw) = TicketSignal.INSPECTION) := by
  refine ⟨?_, ?_, ?_, ?_, ?_, ?_⟩ <;>
    intros <;>
    simp_all [normalize_signal]

/-- Witness for C5's amended precedence on the retriever's own policy label
"Return Policy". -/
theorem normalizer_precedence_amended_witness :
    normalize_signal (some "Return Policy") = TicketSignal.RETURN :=
  (normalizer_precedence_amended "Return Policy").1 (by decide) (by decide)

/-- C7: a general-chat turn is intercepted before the turn counter moves:
the state's `turn_count` and ledger are untouched, the response ticket is
"GCD", the consecutive counter increments, the first occurrence answers
with `chat_closed = false` and the second (or later) with
`chat_closed = true`; any non-general-chat turn resets the consecutive
counter to zero. -/
theorem general_chat_diversion (st : PipelineState) (inp : TurnInput) :
    (inp.intent = some "general_chat" →
      (process_turn st inp).2.final_ticket = "GCD" ∧
        (process_turn st inp).1.turn_count = st.turn_count ∧
        (process_turn st inp).2.turn_count = st.turn_count ∧
        (process_turn st inp).1.signals = st.signals ∧
        (process_turn st inp).1.general_chat_count = st.general_chat_count + 1 ∧
        (st.general_chat_count = 0 →
          (process_turn st inp).2.chat_closed = some false) ∧
        (1 ≤ st.general_chat_count →
          (process_turn st inp).2.chat_closed = some true)) ∧
    (inp.intent ≠ some "general_chat" →
      (process_turn st inp).1.general_chat_count = 0) := by
  constructor
  · intro h
    simp only [process_turn, h, reduceIte]
    split <;>
      refine ⟨rfl, rfl, rfl, rfl, rfl, ?_, ?_⟩ <;>
      intro hc <;>
      first
        | rfl
        | omega
  · intro h
    simp only [process_turn, if_neg h]
    split
    · rfl
    · split <;> rfl

/-- Witness for C7: one general-chat turn on a fresh conversation redirects
without closing and leaves the turn counter at zero. -/
theorem general_chat_diversion_witness :
    (process_turn ⟨0, 0, demo_order, none, []⟩
        ⟨some "general_chat", some "general_chat", false, none, true⟩).2.final_ticket =
        "GCD" ∧
      (process_turn ⟨0, 0, demo_order, none, []⟩
        ⟨some "general_chat", some "general_chat", false, none, true⟩).1.turn_count = 0 ∧
      (process_turn ⟨0, 0, demo_order, none, []⟩
        ⟨some "general_chat", some "general_chat", false, none, true⟩).2.chat_closed =
        some false := by
  have h := (general_chat_diversion ⟨0, 0, demo_order, none, []⟩
    ⟨some "general_chat", some "general_chat", false, none, true⟩).1 rfl
  exact ⟨h.1, h.2.1, h.2.2.2.2.2.1 rfl⟩

/-- C10: on a non-general-chat turn with an absent order or missing
outlet/product/size, `process_turn` answers with the manual fallback
(final ticket INSPECTION), leaves `turn_count` and the ledger unchanged,
and its outcome does not depend on the retriever, engine or inventory
inputs of the turn (they are never consulted). -/
theorem missing_order_context_short_circuit (st : PipelineState)
    (inp : TurnInput) (hgc : inp.intent ≠ some "general_chat")
    (hctx : has_minimum_order_context st.order = false) :
    (process_turn st inp).2 =
      manual_fallback { st with general_chat_count := 0 }
        "Order not found or missing required fields (outlet_id/product_id/size)." ∧
      (process_turn st inp).2.final_ticket = "INSPECTION" ∧
      (process_turn st inp).1.turn_count = st.turn_count ∧
      (process_turn st inp).1.signals = st.signals ∧
      ∀ inp2 : TurnInput, inp2.intent = inp.intent →
        process_turn st inp2 = process_turn st inp := by
  have hgc2 : ∀ inp3 : TurnInput, inp3.intent = inp.intent →
      process_turn st inp3 =
        ({ st with general_chat_count := 0 },
          manual_fallback { st with general_chat_count := 0 }
            "Order not found or missing required fields (outlet_id/product_id/size).") := by
    intro inp3 h3
    have hgc3 : ¬ (inp3.intent = some "general_chat") := by
      rw [h3]; exact hgc
    simp only [process_turn, if_neg hgc3]
    rw [if_pos hctx]
  refine ⟨?_, ?_, ?_, ?_, ?_⟩
  · rw [hgc2 inp rfl]
  · rw [hgc2 inp rfl]; rfl
  · rw [hgc2 inp rfl]
  · rw [hgc2 inp rfl]
  · intro inp2 h2
    rw [hgc2 inp2 h2, hgc2 inp rfl]

/-- Witness for C10: a turn on a conversation whose order lookup returned
`{}` falls back to INSPECTION with nothing recorded. -/
theorem missing_order_context_short_circuit_witness :
    (process_turn ⟨0, 0, ⟨none, none, none, PurchaseDate.absent⟩, none, []⟩
        demo_input_refund).2.final_ticket = "INSPECTION" ∧
      (process_turn ⟨0, 0, ⟨none, none, none, PurchaseDate.absent⟩, none, []⟩
        demo_input_refund).1.signals = [] := by
  have h := missing_order_context_short_circuit
    ⟨0, 0, ⟨none, none, none, PurchaseDate.absent⟩, none, []⟩
    demo_input_refund (by decide) rfl
  exact ⟨h.2.1, h.2.2.2.1⟩

/-- C6: on every turn on which arbitration runs (substantive turn, complete
order, at least one earlier substantive turn), a REPLACEMENT resolution with
unavailable inventory is downgraded to INSPECTION, and any non-REPLACEMENT
resolution is returned unchanged by the gate. -/
theorem inventory_gate_downgrade (st : PipelineState) (inp : TurnInput)
    (hgc : inp.intent ≠ some "general_chat")
    (hctx : has_minimum_order_context st.order = true)
    (hturn : st.turn_count ≠ 0) :
    (resolve_final_ticket ((process_turn st inp).1.signals) =
          TicketSignal.REPLACEMENT ∧ inp.inventory_ok = false →
        (process_turn st inp).2.final_ticket = "INSPECTION") ∧
      (resolve_final_ticket ((process_turn st inp).1.signals) ≠
          TicketSignal.REPLACEMENT →
        (process_turn st inp).2.final_ticket =
          (resolve_final_ticket ((process_turn st inp).1.signals)).toStr) := by
  have hctx2 : ¬ (has_minimum_order_context st.order = false) := by simp [hctx]
  have hturn2 : ¬ (st.turn_count + 1 = 1) := by omega
  simp only [process_turn, if_neg hgc, if_neg hctx2, if_neg hturn2]
  constructor
  · intro h
    rw [if_pos h]
    rfl
  · intro h
    rw [if_neg]
    intro hc
    exact h hc.1

/-- Witness for C6: a replacement conversation whose second turn finds the
inventory empty resolves REPLACEMENT by arbitration but answers
INSPECTION. -/
theorem inventory_gate_downgrade_witness :
    (process_turn
        (⟨1, 0, demo_order, some true,
          [retSig TicketSignal.REPLACEMENT 1, engSig TicketSignal.REPLACEMENT 1]⟩ :
          PipelineState)
        (⟨some "replacement_request", some "replacement_request", false,
          some ⟨some "Replacement", none⟩, false⟩ : TurnInput)).2.final_ticket =
      "INSPECTION" := by
  have h := (inventory_gate_downgrade
    (⟨1, 0, demo_order, some true,
      [retSig TicketSignal.REPLACEMENT 1, engSig TicketSignal.REPLACEMENT 1]⟩ :
      PipelineState)
    (⟨some "replacement_request", some "replacement_request", false,
      some ⟨some "Replacement", none⟩, false⟩ : TurnInput)
    (by decide) (by decide) (by decide)).1
  exact h ⟨by decide, rfl⟩

/-- C9 counterexample: arbitration invoked on the ledger of a single
substantive turn silently returns a ticket (RETURN) instead of raising;
and an already-arbitrated conversation is arbitrated again — the third
substantive turn also returns a fresh arbitrated ticket — so arbitration
does not run at most once per conversation. -/
theorem arbitration_guard_counterexample :
    resolve_final_ticket [retSig TicketSignal.RETURN 1, engSig TicketSignal.RETURN 1] =
        TicketSignal.RETURN ∧
      (process_turn demo_state_turn1 demo_input_refund).2.final_ticket = "RETURN" ∧
      (process_turn (process_turn demo_state_turn1 demo_input_refund).1
          demo_input_refund).2.final_ticket = "RETURN" ∧
      (process_turn (process_turn demo_state_turn1 demo_input_refund).1
          demo_input_refund).1.turn_count = 3 := by
  decide

/-- C9 amended: neither the pipeline nor arbitration guards against early or
repeated invocation, and no error is raised: `_resolve_final_ticket` is
total (a one-turn ledger yields a plain ticket, see the counterexample),
and on every substantive turn beyond the first `process_turn` re-runs
arbitration on the grown ledger and returns its (inventory-gated) result —
so arbitration runs again on each later turn rather than at most once. -/
theorem arbitration_unguarded (st : PipelineState) (inp : TurnInput)
    (hgc : inp.intent ≠ some "general_chat")
    (hctx : has_minimum_order_context st.order = true)
    (hturn : st.turn_count ≠ 0) :
    (process_turn st inp).2.final_ticket =
      (if resolve_final_ticket ((process_turn st inp).1.signals) =
            TicketSignal.REPLACEMENT ∧ inp.inventory_ok = false
        then TicketSignal.INSPECTION
        else resolve_final_ticket ((process_turn st inp).1.signals)).toStr := by
  have hctx2 : ¬ (has_minimum_order_context st.order = false) := by simp [hctx]
  have hturn2 : ¬ (st.turn_count + 1 = 1) := by omega
  simp only [process_turn, if_neg hgc, if_neg hctx2, if_neg hturn2]

/-- Witness for C9's amended statement on a concrete second turn. -/
theorem arbitration_unguarded_witness :
    (process_turn demo_state_turn1 demo_input_refund).2.final_ticket =
      (if resolve_final_ticket
            ((process_turn demo_state_turn1 demo_input_refund).1.signals) =
            TicketSignal.REPLACEMENT ∧ demo_input_refund.inventory_ok = false
        then TicketSignal.INSPECTION
        else resolve_final_ticket
          ((process_turn demo_state_turn1 demo_input_refund).1.signals)).toStr :=
  arbitration_unguarded demo_state_turn1 demo_input_refund (by decide) (by decide)
    (by decide)

theorem select_best_spec (f : PolicyRecord → ℚ) :
    ∀ (rs : List PolicyRecord) (r : PolicyRecord),
      select_best f r rs ∈ r :: rs ∧ f r ≤ f (select_best f r rs) ∧
        ∀ x ∈ rs, f x ≤ f (select_best f r rs) := by
  intro rs
  induction rs with
  | nil =>
    intro r
    simp [select_best]
  | cons c cs ih =>
    intro r
    have heq : select_best f r (c :: cs) =
        select_best f (if f r < f c then c else r) cs := rfl
    obtain ⟨hmem, hle, hall⟩ := ih (if f r < f c then c else r)
    have hstep : f r ≤ f (if f r < f c then c else r) := by
      split
      · exact le_of_lt (by assumption)
      · exact le_refl _
    have hstepc : f c ≤ f (if f r < f c then c else r) := by
      split
      · exact le_refl _
      · exact le_of_not_lt (by assumption)
    refine ⟨?_, ?_, ?_⟩
    · rw [heq]
      rcases List.mem_cons.mp hmem with h1 | h1
      · rw [h1]
        split
        · exact List.mem_cons.mpr (Or.inr (List.mem_cons.mpr (Or.inl rfl)))
        · exact List.mem_cons.mpr (Or.inl rfl)
      · exact List.mem_cons.mpr (Or.inr (List.mem_cons.mpr (Or.inr h1)))
    · rw [heq]
      exact hstep.trans hle
    · intro x hx
      rw [heq]
      rcases List.mem_cons.mp hx with rfl | hx2
      · exact hstepc.trans hle
      · exact hall x hx2

/-- C8: the retriever keeps exactly the records satisfying the eligibility
invariant and returns a highest-similarity survivor; an ineligible store or
a missing/unparseable purchase date yields "no match," which the pipeline
caller turns into the INSPECTION signal — never a crash, never a
rejection. -/
theorem retriever_eligibility_and_best_match (sim : String → List ℚ → ℚ)
    (records : List PolicyRecord) (q : String) (intent : Option String)
    (pd : PurchaseDate) :
    (days_used pd = none →
      retrieve_policy_or_none sim records q intent pd = none) ∧
    (∀ d : Int, days_used pd = some d →
      (records.filter (fun r => eligible_record r d intent) = [] →
        retrieve_policy_or_none sim records q intent pd = none) ∧
      (∀ m : PolicyMatch,
        retrieve_policy_or_none sim records q intent pd = some m →
        ∃ r ∈ records, eligible_record r d intent = true ∧
          m = ⟨r.policy_type, r.content, sim q r.embedding⟩ ∧
          ∀ r2 ∈ records, eligible_record r2 d intent = true →
            sim q r2.embedding ≤ sim q r.embedding)) ∧
    (retrieve_policy_or_none sim records q intent pd = none →
      run_retriever (to_pipeline_policy
        (retrieve_policy_or_none sim records q intent pd)) =
        (TicketSignal.INSPECTION, (none : Option ℚ))) := by
  refine ⟨?_, ?_, ?_⟩
  · intro h
    simp [retrieve_policy_or_none, retrieve_policy, h]
  · intro d hd
    constructor
    · intro hfil
      simp [retrieve_policy_or_none, retrieve_policy, hd, hfil]
    · intro m hm
      cases hfil : records.filter (fun r => eligible_record r d intent) with
      | nil =>
        simp [retrieve_policy_or_none, retrieve_policy, hd, hfil] at hm
      | cons r rs =>
        simp only [retrieve_policy_or_none, retrieve_policy, hd, hfil,
          Option.some.injEq] at hm
        obtain ⟨hmem, hle, hall⟩ :=
          select_best_spec (fun p => sim q p.embedding) rs r
        have hbf : select_best (fun p => sim q p.embedding) r rs ∈
            records.filter (fun r => eligible_record r d intent) := by
          rw [hfil]
          exact hmem
        have hb := List.mem_filter.mp hbf
        refine ⟨select_best (fun p => sim q p.embedding) r rs, hb.1, hb.2, ?_, ?_⟩
        · exact hm.symm
        · intro r2 hr2 helig
          have h2 : r2 ∈ records.filter (fun r => eligible_record r d intent) :=
            List.mem_filter.mpr ⟨hr2, helig⟩
          rw [hfil] at h2
          rcases List.mem_cons.mp h2 with rfl | h3
          · exact hle
          · exact hall r2 h3
  · intro h
    rw [h]
    rfl

/-- Witness for C8 on the retriever test fixture: a 3-day-old order with a
return intent matches the Return policy record with its similarity score,
and that record is maximal among the eligible ones. -/
theorem retriever_eligibility_and_best_match_witness :
    ∃ r ∈ [demo_record], eligible_record r 3 (some "return_request") = true ∧
      (⟨"Return Policy", "eligibility text", 1⟩ : PolicyMatch) =
        ⟨r.policy_type, r.content, demo_sim "i want return" r.embedding⟩ ∧
      ∀ r2 ∈ [demo_record], eligible_record r2 3 (some "return_request") = true →
        demo_sim "i want return" r2.embedding ≤ demo_sim "i want return" r.embedding := by
  have h := ((retriever_eligibility_and_best_match demo_sim [demo_record]
    "i want return" (some "return_request") (PurchaseDate.parsed 3)).2.1 3 rfl).2
  exact h ⟨"Return Policy", "eligibility text", 1⟩ (by decide)

end Stride
